import Mathlib

/-!
Verification of the daily work-summary generation pipeline of the
vibereview-api repository.

The development shallowly embeds the TypeScript sources:

* `src/src/utils/summary-parser.ts` (the JSON response parser
  `parseSummaryJson` together with `validateWorkCategories` and
  `validateProjectTodos`);
* `src/src/utils/summary-prompt.ts` (`generateSummaryPrompt`);
* the guest `POST /guest/generate-summary` route handler
  (`src/unnamed/part_005`, `guestRoutes`);
* the teams `POST /teams/generate-summary` save step and cache check
  (`src/src/routes/teams/index.ts`);
* the `POST /daily-scrums/generate-summary-range` handler
  (`src/unnamed/part_004`).

Modelling conventions, stated once:

* JavaScript runtime values decoded from JSON are modelled by the
  inductive type `Json` below.  JavaScript numbers are modelled by `Rat`
  (exact arithmetic); every numeric value the claims exercise is a small
  integer, on which IEEE-754 double arithmetic is exact, so the model and
  the code agree there.  `NaN` has no counterpart in the model.
* JavaScript strings are modelled by `String`; `s.length` and
  `substring` count UTF-16 code units in JavaScript and Unicode code
  points here — the two agree on all text of the Basic Multilingual
  Plane, which covers every literal in the sources and every input used
  below.
* The external boundaries — `JSON.parse` (together with the code-fence
  stripping of `extractJsonFromResponse`), the generation client
  `generateWithClaude`, and the legacy markdown parser used by the teams
  route — are pure oracles passed as function parameters: the claims
  under verification do not depend on their internals.
* The Supabase store for one `(subject, date)` key is modelled as an
  explicit state; a write that the code performs is recorded in a trace
  of `CacheWrite` events so that the write protocol itself is provable.
-/

/-- A JavaScript value produced by `JSON.parse`: the runtime shape the
parser code probes field by field.  Objects are association lists in key
order (JSON.parse yields unique keys). -/
inductive Json where
  | null : Json
  | bool (b : Bool) : Json
  | num (q : Rat) : Json
  | str (s : String) : Json
  | arr (elems : List Json) : Json
  | obj (fields : List (String × Json)) : Json

/-- JavaScript truthiness: `false`, `0`, `""` and `null` are falsy;
every object and array is truthy. -/
def Json.truthy : Json → Bool
  | .null => false
  | .bool b => b
  | .num q => !(q == 0)
  | .str s => !(s == "")
  | .arr _ => true
  | .obj _ => true

/-- `typeof v === 'object'` in JavaScript: true for objects, arrays and
`null`. -/
def Json.typeofObject : Json → Bool
  | .null => true
  | .arr _ => true
  | .obj _ => true
  | _ => false

/-- `Array.isArray`. -/
def Json.isArray : Json → Bool
  | .arr _ => true
  | _ => false

/-- Property access `v[k]` for a named key: `none` models `undefined`
(also what an array yields for a named property). -/
def Json.getField : Json → String → Option Json
  | .obj fields, k => (fields.find? (fun f => f.1 == k)).map (·.2)
  | _, _ => none

/-- The fields of an object, `[]` otherwise (used where the code has
already established the value is an object). -/
def Json.objFields : Json → List (String × Json)
  | .obj fields => fields
  | _ => []

/-- `Object.keys(v)` paired with the values: field order for objects,
index keys `"0"`, `"1"`, … for arrays. -/
def Json.keysAndValues : Json → List (String × Json)
  | .obj fields => fields
  | .arr xs => xs.enum.map (fun p => (toString p.1, p.2))
  | _ => []

/-- `Math.max` on two numbers. -/
def jsMax (a b : Rat) : Rat := if a ≤ b then b else a

/-- `Math.min` on two numbers. -/
def jsMin (a b : Rat) : Rat := if a ≤ b then a else b

/-- `Math.abs`. -/
def jsAbs (q : Rat) : Rat := if q < 0 then -q else q

/-- JavaScript's rendering of an integral number.  For non-integral
values JavaScript prints the shortest round-tripping decimal of the
double; that formatting is outside the model (no claim exercises it). -/
def ratToJsString (q : Rat) : String :=
  if q.den = 1 then toString q.num else toString q

mutual

/-- The `String(v)` conversion body; arrays join their elements'
conversions with commas.  (JavaScript renders a `null` array element as
the empty string inside a join; the model renders it as "null" — a
boundary approximation no claim exercises.) -/
def jsToString : Json → String
  | .null => "null"
  | .bool b => cond b "true" "false"
  | .num q => ratToJsString q
  | .str s => s
  | .obj _ => "[object Object]"
  | .arr xs => String.intercalate "," (jsToStringList xs)

/-- The element-wise conversions of an array's members. -/
def jsToStringList : List Json → List String
  | [] => []
  | x :: xs => jsToString x :: jsToStringList xs

end

/-- One coerced work-category bucket (`WorkCategoryData` of
summary-parser.ts).  `description` is `cat.description || null`: any
truthy value is kept as is, so it stays a `Json`. -/
structure WorkCategoryData where
  minutes : Rat
  percentage : Rat
  description : Option Json

/-- The fixed seven buckets (`WorkCategories` of summary-parser.ts). -/
structure WorkCategories where
  planning : WorkCategoryData
  frontend : WorkCategoryData
  backend : WorkCategoryData
  qa : WorkCategoryData
  devops : WorkCategoryData
  research : WorkCategoryData
  other : WorkCategoryData

/-- One validated todo entry (`TodoItem`): `category` is one of the
seven names by construction. -/
structure TodoItem where
  text : String
  category : String

/-- One validated per-project todo set (`ProjectTodo`).  At runtime
`project_name` is `project.project_name || slug`, i.e. an arbitrary
truthy `Json` or the slug string, hence the `Json` type. -/
structure ProjectTodo where
  project_id : Option Json
  project_name : Json
  todos : List TodoItem

/-- The error messages `parseSummaryJson` accumulates, one constructor
per `errors.push` site of summary-parser.ts, carrying the data the
Korean message interpolates:

* `summaryInvalid` — "summary 필드가 없거나 객체가 아닙니다."
* `workCategoriesInvalid` — "work_categories 필드가 없거나 객체가 아닙니다."
* `projectTodosInvalid` — "project_todos 필드가 없거나 객체가 아닙니다."
* `qualityScoreInvalid` — "quality_score 필드가 없거나 숫자가 아닙니다."
* `qualityScoreExplanationInvalid` — "quality_score_explanation 필드가 없거나 문자열이 아닙니다."
* `percentageSumWarning total` — "work_categories의 percentage 합계가 100%가 아닙니다 (현재: total%)"
* `todoItemInvalid slug n` — "프로젝트 "slug"의 n번째 todo 항목이 유효하지 않습니다."
* `todosNotArray slug` — "프로젝트 "slug"의 todos가 배열이 아닙니다."
* `jsonParseError` — "JSON 파싱 중 오류 발생: …" (the caught exception).
-/
inductive ParseErr where
  | summaryInvalid : ParseErr
  | workCategoriesInvalid : ParseErr
  | projectTodosInvalid : ParseErr
  | qualityScoreInvalid : ParseErr
  | qualityScoreExplanationInvalid : ParseErr
  | percentageSumWarning (total : Rat) : ParseErr
  | todoItemInvalid (slug : String) (ordinal : Nat) : ParseErr
  | todosNotArray (slug : String) : ParseErr
  | jsonParseError : ParseErr
deriving DecidableEq

/-- The result record of `parseSummaryJson` (`ParsedSummaryData` of the
JSON variant of summary-parser.ts).  `summary` is copied verbatim from
the payload, so its values are arbitrary `Json`. -/
structure ParsedSummaryData where
  summary : List (String × Json)
  work_categories : WorkCategories
  project_todos : List (String × ProjectTodo)
  quality_score : Rat
  quality_score_explanation : String
  parseSuccess : Bool
  errors : List ParseErr

/-- `getEmptyWorkCategories` of summary-parser.ts. -/
def getEmptyWorkCategories : WorkCategories :=
  let empty : WorkCategoryData := { minutes := 0, percentage := 0, description := none }
  { planning := empty, frontend := empty, backend := empty, qa := empty,
    devops := empty, research := empty, other := empty }

/-- The `validCategories` list (`VALID_CATEGORIES`). -/
def validCategoryNames : List String :=
  ["planning", "frontend", "backend", "qa", "devops", "research", "other"]

/-- The per-category coercion step of `validateWorkCategories`: when
`categories[name]` is present and a truthy object value, clamp
`minutes` to `≥ 0`, `percentage` to `[0, 100]`, keep a truthy
`description`; `none` when the branch is not taken (the bucket then
keeps its zero defaults and does not contribute to the sum). -/
def coerceWorkCategory (categories : Json) (name : String) : Option WorkCategoryData :=
  match categories.getField name with
  | some cat =>
    if cat.truthy && cat.typeofObject then
      some {
        minutes := match cat.getField "minutes" with
          | some (.num q) => jsMax 0 q
          | _ => 0
        percentage := match cat.getField "percentage" with
          | some (.num q) => jsMax 0 (jsMin 100 q)
          | _ => 0
        description := match cat.getField "description" with
          | some d => if d.truthy then some d else none
          | none => none }
    else none
  | none => none

/-- `validateWorkCategories` of summary-parser.ts: coerce each of the
seven buckets and, when the accumulated percentage total is positive and
deviates from 100 by more than 1, append the sum warning to the errors.
(A bucket whose branch is not taken keeps percentage 0, so summing the
final percentages equals the code's running total.) -/
def validateWorkCategories (categories : Json) : WorkCategories × List ParseErr :=
  let get := fun name => (coerceWorkCategory categories name).getD
    { minutes := 0, percentage := 0, description := none }
  let result : WorkCategories :=
    { planning := get "planning", frontend := get "frontend", backend := get "backend",
      qa := get "qa", devops := get "devops", research := get "research",
      other := get "other" }
  let totalPercentage :=
    result.planning.percentage + result.frontend.percentage + result.backend.percentage +
    result.qa.percentage + result.devops.percentage + result.research.percentage +
    result.other.percentage
  (result,
    if 0 < totalPercentage ∧ 1 < jsAbs (totalPercentage - 100) then
      [.percentageSumWarning totalPercentage]
    else [])

/-- The todo-item loop of `validateProjectTodos`: an item that is a
truthy object with truthy `text` is kept (text via `String(...)`,
category coerced to `other` unless one of the seven names); any other
item records `todoItemInvalid` with its 1-based index. -/
def parseTodoItems (slug : String) (items : List Json) : List TodoItem × List ParseErr :=
  items.enum.foldl
    (fun acc p =>
      let idx := p.1
      let todo := p.2
      let textOk := match todo.getField "text" with
        | some t => t.truthy
        | none => false
      if todo.truthy && todo.typeofObject && textOk then
        let text := jsToString ((todo.getField "text").getD .null)
        let category := match todo.getField "category" with
          | some (.str c) => if validCategoryNames.contains c then c else "other"
          | _ => "other"
        (acc.1 ++ [{ text := text, category := category }], acc.2)
      else
        (acc.1, acc.2 ++ [.todoItemInvalid slug (idx + 1)]))
    ([], [])

/-- `validateProjectTodos` of summary-parser.ts.  For each key of the
payload: a truthy `typeof 'object'` entry (so also an **array**) is kept
— `project_id := project.project_id || null`, `project_name :=
project.project_name || slug`, and its `todos` validated item by item
when they are an array, otherwise an empty list plus the
`todosNotArray` error; an entry that is not a truthy object is silently
skipped (the loop body of `validateProjectTodos`). -/
def validateProjectTodoStep (acc : List (String × ProjectTodo) × List ParseErr)
    (sp : String × Json) : List (String × ProjectTodo) × List ParseErr :=
  let slug := sp.1
  let project := sp.2
  if project.truthy && project.typeofObject then
    let pid := match project.getField "project_id" with
      | some v => if v.truthy then some v else none
      | none => none
    let pname := match project.getField "project_name" with
      | some v => if v.truthy then v else Json.str slug
      | none => Json.str slug
    match project.getField "todos" with
    | some (.arr items) =>
      let r := parseTodoItems slug items
      (acc.1 ++ [(slug, { project_id := pid, project_name := pname, todos := r.1 })],
       acc.2 ++ r.2)
    | _ =>
      (acc.1 ++ [(slug, { project_id := pid, project_name := pname, todos := [] })],
       acc.2 ++ [.todosNotArray slug])
  else acc

/-- The iteration of `validateProjectTodos` over the payload's keys. -/
def validateProjectTodos (todos : Json) : List (String × ProjectTodo) × List ParseErr :=
  todos.keysAndValues.foldl validateProjectTodoStep ([], [])

/-- The empty result `parseSummaryJson` starts from. -/
def emptyParsedSummaryData : ParsedSummaryData :=
  { summary := [], work_categories := getEmptyWorkCategories, project_todos := [],
    quality_score := 0, quality_score_explanation := "", parseSuccess := false,
    errors := [] }

/-- The field-by-field body of `parseSummaryJson` of summary-parser.ts,
applied to the decoded (non-`null`) payload of `JSON.parse` after the
code-fence stripping of `extractJsonFromResponse`.

Field steps, each independent, mirroring the source order:
1. `summary` — kept verbatim when a truthy non-array object;
2. `work_categories` — `validateWorkCategories` when a truthy object;
3. `project_todos` — `validateProjectTodos` when a truthy object;
4. `quality_score` — clamped to `[0,1]` when a number;
5. `quality_score_explanation` — first 300 characters of a truthy string;
6. `parseSuccess := summary nonempty && errors empty`. -/
def parseSummaryJsonPayload (parsed : Json) : ParsedSummaryData :=
    let summaryStep : List (String × Json) × List ParseErr :=
      match parsed.getField "summary" with
      | some v =>
        if v.truthy && v.typeofObject && !v.isArray then (v.objFields, [])
        else ([], [.summaryInvalid])
      | none => ([], [.summaryInvalid])
    let wcStep : WorkCategories × List ParseErr :=
      match parsed.getField "work_categories" with
      | some v =>
        if v.truthy && v.typeofObject then validateWorkCategories v
        else (getEmptyWorkCategories, [.workCategoriesInvalid])
      | none => (getEmptyWorkCategories, [.workCategoriesInvalid])
    let todosStep : List (String × ProjectTodo) × List ParseErr :=
      match parsed.getField "project_todos" with
      | some v =>
        if v.truthy && v.typeofObject then validateProjectTodos v
        else ([], [.projectTodosInvalid])
      | none => ([], [.projectTodosInvalid])
    let qsStep : Rat × List ParseErr :=
      match parsed.getField "quality_score" with
      | some (.num q) => (jsMax 0 (jsMin 1 q), [])
      | _ => (0, [.qualityScoreInvalid])
    let qseStep : String × List ParseErr :=
      match parsed.getField "quality_score_explanation" with
      | some (.str s) =>
        if !(s == "") then (s.take 300, []) else ("", [.qualityScoreExplanationInvalid])
      | _ => ("", [.qualityScoreExplanationInvalid])
    let errors := summaryStep.2 ++ wcStep.2 ++ todosStep.2 ++ qsStep.2 ++ qseStep.2
    { summary := summaryStep.1
      work_categories := wcStep.1
      project_todos := todosStep.1
      quality_score := qsStep.1
      quality_score_explanation := qseStep.1
      parseSuccess := !summaryStep.1.isEmpty && errors.isEmpty
      errors := errors }

/-- `parseSummaryJson`, taken from the decoded payload on: `none` when
`JSON.parse` threw (the caught-error branch), and a top-level `null`
payload lands in the same branch (the first property access throws). -/
def parseSummaryJson (input : Option Json) : ParsedSummaryData :=
  match input with
  | none => { emptyParsedSummaryData with errors := [.jsonParseError] }
  | some .null => { emptyParsedSummaryData with errors := [.jsonParseError] }
  | some parsed => parseSummaryJsonPayload parsed

/-- `ProjectText` of summary-prompt.ts. -/
structure ProjectText where
  projectName : String
  userText : String

/-- JavaScript `s.substring(0, n)`. -/
def jsSubstring (s : String) (n : Nat) : String :=
  String.mk (s.data.take n)

/-- The prompt length bound `MAX_CHARS` of `generateSummaryPrompt`. -/
def MAX_CHARS : Nat := 150000

/-- The marker appended after truncation: `"\n\n... (텍스트가 잘렸습니다)"`. -/
def truncationMarker : String := "\n\n... (텍스트가 잘렸습니다)"

/-- The fixed template text of `generateSummaryPrompt` before the
`${date}` interpolation. -/
def promptHeaderA : String :=
  "\n당신은 개발자의 AI 코딩 세션을 분석하는 전문가입니다.\n" ++
  "아래 세션 데이터를 분석하여 **JSON 형식으로만** 응답해주세요.\n\n" ++
  "# 세션 데이터\n날짜: "

/-- The template text between `${date}` and `${projectData.length}`. -/
def promptHeaderB : String := "\n총 프로젝트 수: "

/-- The template text between `${projectData.length}` and the joined
per-project sections. -/
def promptHeaderC : String := "\n\n## 프로젝트별 세션 내역\n"

/-- The per-project data block of `generateSummaryPrompt`'s `map`
callback: message count (blank-line separated, non-blank after trim),
character count, full text. -/
def projectSection (project : ProjectText) : String :=
  let messages := (project.userText.splitOn "\n\n").filter (fun t => t.trim.length > 0)
  let totalLength := project.userText.length
  let messageCount := messages.length
  "\n### 프로젝트: " ++ project.projectName ++ "\n총 " ++ toString messageCount ++
    "개 프롬프트, 총 " ++ toString totalLength ++ "자\n\n" ++ project.userText ++ "\n"

/-- The fixed template text of `generateSummaryPrompt` after the joined
per-project sections: the analysis request and the JSON response-format
contract (braces of the JSON example written with escapes). -/
def promptClosing : String :=
  "\n\n---\n\n# 분석 요청\n\n" ++
  "## 1. 업무 카테고리 분류\n" ++
  "각 카테고리별로 업무를 추정하고, 구체적인 작업 내용을 설명해주세요.\n\n" ++
  "**카테고리 정의:**\n" ++
  "- **planning**: 요구사항 분석, 설계, 아키텍처 논의\n" ++
  "- **frontend**: UI/UX 개발, 컴포넌트 작성, 스타일링\n" ++
  "- **backend**: API 개발, 서버 로직, 데이터베이스 작업\n" ++
  "- **qa**: 테스트 작성, 버그 수정, 코드 리뷰, 리팩토링\n" ++
  "- **devops**: 배포, 인프라 설정, CI/CD\n" ++
  "- **research**: 문서 조사, 학습, 새로운 기술 탐색\n" ++
  "- **other**: 기타 (구체적으로 명시)\n\n" ++
  "각 카테고리별 예상 작업 시간(분)과 비율(%)을 계산하고, 수행한 작업을 간략히 설명하세요.\n" ++
  "작업하지 않은 카테고리는 minutes: 0, percentage: 0, description: null로 설정하세요.\n\n" ++
  "## 2. 프로젝트별 Todo 리스트\n" ++
  "각 프로젝트에서 수행한 작업을 구체적으로 나열해주세요.\n" ++
  "- text: 구체적인 작업 내용\n" ++
  "- category: 해당 작업의 카테고리 (planning/frontend/backend/qa/devops/research/other)\n\n" ++
  "## 3. 업무 요약 (프로젝트별 총평)\n" ++
  "각 프로젝트에서 수행한 작업들의 전체적인 흐름과 목적을 총평하세요.\n" ++
  "개별 작업 나열보다는 \"무엇을 위해 어떤 작업들을 했는지\" 관점에서 서술하세요.\n\n" ++
  "**작성 예시:**\n" ++
  "\"프로젝트A: 사용자 인증 기능을 구현하기 위해 백엔드 API와 프론트엔드 UI 작업을 진행했습니다. JWT 토큰 기반 로그인/로그아웃 플로우를 완성하고, 에러 처리와 테스트까지 마쳤습니다.\"\n\n" ++
  "각 프로젝트당 100-150자 내외로 작성하세요.\n\n" ++
  "## 4. 품질 점수 및 근거\n" ++
  "**Claude 베스트 프랙티스 기반 평가 기준**에 따라 0.00 ~ 1.00 사이의 점수를 엄격하게 부여하세요:\n\n" ++
  "**평가 기준 (각 항목당 20점 만점):**\n" ++
  "1. **명확한 지시사항**: 요청이 구체적이고 모호하지 않은가?\n" ++
  "2. **충분한 컨텍스트**: 배경 정보, 제약사항, 목적이 명확한가?\n" ++
  "3. **구체적인 예시**: 입력/출력 예시나 구체적인 사례를 제공했는가?\n" ++
  "4. **명확한 출력 형식**: 원하는 응답 형식을 명시했는가?\n" ++
  "5. **단계적 사고 유도**: 복잡한 문제를 단계별로 나누어 요청했는가?\n\n" ++
  "**점수 부여 원칙:**\n" ++
  "- 0.9-1.0: 5가지 기준을 모두 충족, 모범적인 프롬프트\n" ++
  "- 0.8-0.89: 4가지 기준 충족, 일부 개선 여지\n" ++
  "- 0.7-0.79: 3가지 기준 충족, 여러 개선점 필요\n" ++
  "- 0.6-0.69: 2가지 기준 충족, 상당한 개선 필요\n" ++
  "- 0.0-0.59: 기준 미달, 대부분 모호하거나 불충분한 프롬프트\n\n" ++
  "quality_score_explanation에는 어떤 기준을 충족/미충족했는지 구체적으로 설명하세요 (200자 이내).\n\n" ++
  "**예시:**\n" ++
  "\"명확한 지시와 충분한 컨텍스트 제공(+40). 하지만 구체적인 예시 없음(-20), 출력 형식 불명확(-20). 단계적 접근 부재(-20). 총 40점으로 0.4점 부여.\"\n\n" ++
  "---\n\n# 응답 형식 (JSON만 출력, 설명 금지)\n\n" ++
  "\x7b\n" ++
  "  \"summary\": \x7b\n" ++
  "    \"프로젝트-슬러그\": \"해당 프로젝트의 전체적인 작업 총평 (100-150자)\"\n" ++
  "  \x7d,\n" ++
  "  \"work_categories\": \x7b\n" ++
  "    \"planning\": \x7b \"minutes\": 0, \"percentage\": 0, \"description\": \"작업 내용 또는 null\" \x7d,\n" ++
  "    \"frontend\": \x7b \"minutes\": 0, \"percentage\": 0, \"description\": \"작업 내용 또는 null\" \x7d,\n" ++
  "    \"backend\": \x7b \"minutes\": 0, \"percentage\": 0, \"description\": \"작업 내용 또는 null\" \x7d,\n" ++
  "    \"qa\": \x7b \"minutes\": 0, \"percentage\": 0, \"description\": \"작업 내용 또는 null\" \x7d,\n" ++
  "    \"devops\": \x7b \"minutes\": 0, \"percentage\": 0, \"description\": \"작업 내용 또는 null\" \x7d,\n" ++
  "    \"research\": \x7b \"minutes\": 0, \"percentage\": 0, \"description\": \"작업 내용 또는 null\" \x7d,\n" ++
  "    \"other\": \x7b \"minutes\": 0, \"percentage\": 0, \"description\": \"작업 내용 또는 null\" \x7d\n" ++
  "  \x7d,\n" ++
  "  \"project_todos\": \x7b\n" ++
  "    \"프로젝트-슬러그\": \x7b\n" ++
  "      \"project_id\": \"추정 불가시 null\",\n" ++
  "      \"project_name\": \"프로젝트명\",\n" ++
  "      \"todos\": [\n" ++
  "        \x7b\n" ++
  "          \"text\": \"구체적인 작업 내용\",\n" ++
  "          \"category\": \"frontend\"\n" ++
  "        \x7d\n" ++
  "      ]\n" ++
  "    \x7d\n" ++
  "  \x7d,\n" ++
  "  \"quality_score\": 0.85,\n" ++
  "  \"quality_score_explanation\": \"점수에 대한 근거 설명 (200자 이내)\"\n" ++
  "\x7d\n"

/-- The rendered (pre-truncation) prompt of `generateSummaryPrompt`:
header with date and project count, the joined per-project data
sections, then the fixed analysis-request/schema block. -/
def renderedSummaryPrompt (date : String) (projectData : List ProjectText) : String :=
  promptHeaderA ++ date ++ promptHeaderB ++ toString projectData.length ++ promptHeaderC ++
    String.intercalate "\n" (projectData.map projectSection) ++ promptClosing

/-- `generateSummaryPrompt` of summary-prompt.ts: the rendered prompt,
cut at `MAX_CHARS` with the truncation marker appended when it is
longer. -/
def generateSummaryPrompt (date : String) (projectData : List ProjectText) : String :=
  let analysisPrompt := renderedSummaryPrompt date projectData
  if analysisPrompt.length > MAX_CHARS then
    jsSubstring analysisPrompt MAX_CHARS ++ truncationMarker
  else
    analysisPrompt

/-- The subject a summary belongs to: a registered user (`user_id`
column) or a guest (`guest_user_id` column). -/
inductive Subject where
  | user (id : String)
  | guest (id : String)
deriving DecidableEq

/-- The `daily_ai_summaries` row the guest route inserts (part_005,
insert at the save step) and reads back on a cache hit.  `createdAt`
models the store-assigned `created_at` timestamp as the handler's clock
parameter.  `dailySummary` is persisted as `JSON.stringify` of the
parsed summary map and parsed back on read; the round trip is the
identity on these JSON-safe values, so the map itself is stored. -/
structure SummaryRow where
  summaryText : String
  projectTexts : List ProjectText
  forceRegenerated : Bool
  parsedData : ParsedSummaryData
  dailySummary : List (String × Json)
  workCategories : WorkCategories
  projectTodos : List (String × ProjectTodo)
  qualityScore : Rat
  qualityScoreExplanation : String
  createdAt : Nat

/-- The markdown-parser result type (`ParsedSummaryData` of the legacy
markdown variant of summary-parser.ts); the teams route consumes it
through the `parseSummaryMarkdown` oracle. -/
structure MarkdownProjectTask where
  task : String
  promptCount : Int
  category : String
  estimatedTime : String
  rawText : String

/-- `ProjectTasks` of the markdown variant of summary-parser.ts. -/
structure MarkdownProjectTasks where
  projectName : String
  tasks : List MarkdownProjectTask

/-- The markdown parse result consumed by the teams route. -/
structure MarkdownParsedData where
  dailySummary : String
  tasksByProject : List MarkdownProjectTasks
  totalTasks : Nat
  categoryCounts : List (String × Nat)
  parseSuccess : Bool
  errors : List String

/-- The `daily_ai_summaries` row the teams route upserts
(teams/index.ts, save step). -/
structure TeamsRow where
  summaryText : String
  projectTexts : List ProjectText
  forceRegenerated : Bool
  parsedData : MarkdownParsedData
  dailySummary : String
  createdAt : Nat

/-- One write against the summary cache store, as the route handlers
issue them: the guest route deletes then inserts, the teams route
upserts. -/
inductive CacheWrite where
  | delete (subject : Subject) (date : String)
  | insert (subject : Subject) (date : String) (row : SummaryRow)
  | upsert (subject : Subject) (date : String) (row : TeamsRow)

/-- Whether a write is an upsert. -/
def CacheWrite.isUpsert : CacheWrite → Bool
  | .upsert .. => true
  | _ => false

/-- Whether a write is a delete. -/
def CacheWrite.isDelete : CacheWrite → Bool
  | .delete .. => true
  | _ => false

/-- The fixed empty-day response text of both generate-summary routes:
"이 날짜에는 작업한 내용이 없습니다." -/
def noActivityMessage : String := "이 날짜에는 작업한 내용이 없습니다."

/-- The `data` object of the guest route's JSON response, one
constructor per `reply.send` shape: a cache hit (`cached: true`,
`parse_errors: []`), the fixed no-activity response (`cached: false`,
summary `noActivityMessage`), or a freshly generated summary
(`cached: false`). -/
inductive GuestData where
  | cached (summary : String) (createdAt : Nat) (parsedData : ParsedSummaryData)
      (dailySummary : List (String × Json)) (workCategories : WorkCategories)
      (projectTodos : List (String × ProjectTodo)) (qualityScore : Rat)
      (qualityScoreExplanation : String) (parseErrors : List ParseErr)
  | noActivity
  | fresh (summary : String) (projectCount : Nat) (parsedData : ParsedSummaryData)
      (dailySummary : List (String × Json)) (workCategories : WorkCategories)
      (projectTodos : List (String × ProjectTodo)) (qualityScore : Rat)
      (qualityScoreExplanation : String) (parseErrors : List ParseErr)

/-- The `cached` flag of the guest response. -/
def GuestData.cachedFlag : GuestData → Bool
  | .cached .. => true
  | _ => false

/-- The SummaryRecord fields (§3 of the data model) present in both the
cache-hit and the fresh guest response: the raw generated text, the
per-project summary map, the seven categories, the todo sets, the
quality score and its explanation, and the parsed record.  The `cached`
flag, the HTTP-level `project_count` / `created_at` extras and the
`parse_errors` list are response metadata outside the record. -/
structure SummaryRecordView where
  rawText : String
  dailySummary : List (String × Json)
  workCategories : WorkCategories
  projectTodos : List (String × ProjectTodo)
  qualityScore : Rat
  qualityScoreExplanation : String
  parsedData : ParsedSummaryData

/-- The record carried by a guest response, when it has one. -/
def GuestData.recordView : GuestData → Option SummaryRecordView
  | .cached s _ pd ds wc pt qs qse _ =>
    some { rawText := s, dailySummary := ds, workCategories := wc, projectTodos := pt,
           qualityScore := qs, qualityScoreExplanation := qse, parsedData := pd }
  | .fresh s _ pd ds wc pt qs qse _ =>
    some { rawText := s, dailySummary := ds, workCategories := wc, projectTodos := pt,
           qualityScore := qs, qualityScoreExplanation := qse, parsedData := pd }
  | .noActivity => none

/-- The store state for one `(guest user, date)` key, together with the
number of `generateWithClaude` calls issued so far. -/
structure GuestState where
  cache : Option SummaryRow
  genCalls : Nat

/-- A guest handler run: response data, resulting state, writes issued. -/
structure GuestOutcome where
  data : GuestData
  state : GuestState
  writes : List CacheWrite

/-- The cache-miss tail of the guest `POST /guest/generate-summary`
handler (part_005): empty extraction short-circuits to the fixed
no-activity response with no generation call and no write; otherwise
build the prompt (`generateSummaryPrompt`), call the generation client,
parse the response (`parseSummaryJson` after the JSON.parse oracle),
then delete-then-insert the row keyed by `(guest_user_id, date)`.
`gen` is the `generateWithClaude` oracle; `jsonParse` the
code-fence-stripping + `JSON.parse` oracle.  The store is modelled as
failure-free (the `saveError` path only logs). -/
def guestGenerateMiss (gen : String → String) (jsonParse : String → Option Json)
    (userId date : String) (projectData : List ProjectText) (forceRegenerate : Bool)
    (now : Nat) (st : GuestState) : GuestOutcome :=
  if projectData.isEmpty then
    { data := .noActivity, state := st, writes := [] }
  else
    let analysisPrompt := generateSummaryPrompt date projectData
    let summary := gen analysisPrompt
    let parsedData := parseSummaryJson (jsonParse summary)
    let row : SummaryRow :=
      { summaryText := summary, projectTexts := projectData,
        forceRegenerated := forceRegenerate, parsedData := parsedData,
        dailySummary := parsedData.summary, workCategories := parsedData.work_categories,
        projectTodos := parsedData.project_todos, qualityScore := parsedData.quality_score,
        qualityScoreExplanation := parsedData.quality_score_explanation, createdAt := now }
    { data := .fresh summary projectData.length parsedData parsedData.summary
        parsedData.work_categories parsedData.project_todos parsedData.quality_score
        parsedData.quality_score_explanation parsedData.errors,
      state := { cache := some row, genCalls := st.genCalls + 1 },
      writes := [.delete (.guest userId) date, .insert (.guest userId) date row] }

/-- The guest `POST /guest/generate-summary` handler (part_005), for one
`(guest user, date)` key: unless forcing, a cached row is returned as
is (`cached: true`, `parse_errors: []`); otherwise the cache-miss tail
runs.  `projectData` is the effective per-project text list — the
caller-supplied `projectTexts` or the extraction result (the code's
empty-extraction early returns and the final empty check all return the
same fixed no-activity response, folded into the miss tail). -/
def guestGenerateSummary (gen : String → String) (jsonParse : String → Option Json)
    (userId date : String) (projectData : List ProjectText) (forceRegenerate : Bool)
    (now : Nat) (st : GuestState) : GuestOutcome :=
  match forceRegenerate, st.cache with
  | false, some row =>
    { data := .cached row.summaryText row.createdAt row.parsedData row.dailySummary
        row.workCategories row.projectTodos row.qualityScore row.qualityScoreExplanation [],
      state := st, writes := [] }
  | false, none => guestGenerateMiss gen jsonParse userId date projectData false now st
  | true, _ => guestGenerateMiss gen jsonParse userId date projectData true now st

/-- The fixed teams-prompt text before `${date}` (teams/index.ts,
inline template). -/
def teamsPromptA : String := "\n다음은 한 사용자가 "

/-- The teams-prompt text between `${date}` and the joined per-project
blocks. -/
def teamsPromptB : String := " 날짜에 프로젝트별로 작성한 모든 사용자 메시지들입니다:\n\n"

/-- The per-project data block of the teams route's inline template. -/
def teamsProjectSection (project : ProjectText) : String :=
  let messages := (project.userText.splitOn "\n\n").filter (fun t => t.trim.length > 0)
  let totalLength := project.userText.length
  let messageCount := messages.length
  "\n## 프로젝트: " ++ project.projectName ++ "\n총 " ++ toString messageCount ++
    "개 프롬프트, 총 " ++ toString totalLength ++ "자\n\n" ++ project.userText ++ "\n"

/-- The data part of the teams prompt: intro with date, then the joined
per-project blocks.  Only this part is subject to truncation. -/
def teamsPromptBase (date : String) (projectData : List ProjectText) : String :=
  teamsPromptA ++ date ++ teamsPromptB ++
    String.intercalate "\n" (projectData.map teamsProjectSection)

/-- The teams instruction text appended after truncation, before the
per-project checklist skeleton. -/
def teamsTailA : String :=
  "\n\n위 메시지들을 분석해서 다음 형태로 응답해주세요:\n\n" ++
  "## 📝 오늘의 업무 요약\n" ++
  "[사용자가 오늘 진행한 핵심 업무들을 500자 이내로 간결하게 요약해주세요. 주요 성과와 작업한 프로젝트들, 해결한 문제들을 중심으로 서술]\n\n" ++
  "## ✅ 완료한 작업 목록\n\n"

/-- The per-project checklist skeleton of the teams prompt. -/
def teamsChecklist (projectData : List ProjectText) : String :=
  String.intercalate "\n\n" (projectData.map (fun project =>
    "### 프로젝트: " ++ project.projectName ++
      "\n- [ ] [해당 프로젝트에서 완료한 구체적인 작업 항목들]"))

/-- The teams instruction text after the checklist skeleton (trailing
blanks of the source lines kept). -/
def teamsTailB : String :=
  "\n\n**작업 분석 지침:**\n" ++
  "1. 각 프롬프트에서 실제로 요청하거나 작업한 구체적인 내용을 추출\n" ++
  "2. \"API 엔드포인트 구현\", \"버그 수정\", \"UI 컴포넌트 개발\" 등 명확한 작업 단위로 표현\n" ++
  "3. 하나의 작업을 완료하는데 사용된 프롬프트 횟수와 작업 분류, 예상 소요시간을 분석\n" ++
  "4. 체크박스(- [ ]) 형태로 TODO 리스트 작성\n" ++
  "5. 각 작업 뒤에 **(프롬프트 N회, 카테고리, 예상시간)** 형태로 메타데이터 추가\n" ++
  "6. 한국어로 작성하되, 기술 용어는 그대로 유지\n\n" ++
  "**작업 카테고리:**\n" ++
  "- 기능구현: 새로운 기능이나 API 개발\n" ++
  "- 버그수정: 오류나 문제점 해결  \n" ++
  "- 리팩토링: 코드 구조나 성능 개선\n" ++
  "- UI개선: 사용자 인터페이스 수정\n" ++
  "- 문서작업: 문서화나 주석 작성\n" ++
  "- 설정작업: 환경설정이나 도구 설정\n" ++
  "- 테스트: 테스트 코드 작성이나 검증\n\n" ++
  "**응답 예시:**\n" ++
  "- [ ] 사용자 인증 API 엔드포인트 구현 (프롬프트 5회)\n" ++
  "- [ ] 데이터베이스 연결 오류 수정 (프롬프트 2회)  \n" ++
  "- [ ] 대시보드 레이아웃 개선 (프롬프트 3회)\n" ++
  "- [ ] API 문서 업데이트 (프롬프트 1회)\n"

/-- The teams route's inline prompt: the data part is truncated at
`MAX_CHARS` (with the marker) *before* the instruction blocks are
appended — unlike `generateSummaryPrompt`, which truncates the whole
rendered prompt. -/
def teamsPrompt (date : String) (projectData : List ProjectText) : String :=
  let base := teamsPromptBase date projectData
  let truncated :=
    if base.length > MAX_CHARS then jsSubstring base MAX_CHARS ++ truncationMarker else base
  truncated ++ teamsTailA ++ teamsChecklist projectData ++ teamsTailB

/-- The `data` object of the teams route's JSON response, one
constructor per `reply.send` shape.  In both the cached and the fresh
shape the `daily_summary`, `tasks_count`, `category_breakdown` and
`parse_errors` fields are computed from the markdown parse of the
summary text. -/
inductive TeamsData where
  | cached (summary : String) (createdAt : Nat) (parsedData : MarkdownParsedData)
      (dailySummary : String) (tasksCount : Nat)
      (categoryBreakdown : List (String × Nat)) (parseErrors : List String)
  | noActivity
  | fresh (summary : String) (projectCount : Nat) (parsedData : MarkdownParsedData)
      (dailySummary : String) (tasksCount : Nat)
      (categoryBreakdown : List (String × Nat)) (parseErrors : List String)

/-- The `cached` flag of the teams response. -/
def TeamsData.cachedFlag : TeamsData → Bool
  | .cached .. => true
  | _ => false

/-- The record fields present in both the cache-hit and the fresh teams
response. -/
structure TeamsRecordView where
  rawText : String
  parsedData : MarkdownParsedData
  dailySummary : String
  tasksCount : Nat
  categoryBreakdown : List (String × Nat)
  parseErrors : List String

/-- The record carried by a teams response, when it has one. -/
def TeamsData.recordView : TeamsData → Option TeamsRecordView
  | .cached s _ pd ds tc cb pe =>
    some { rawText := s, parsedData := pd, dailySummary := ds, tasksCount := tc,
           categoryBreakdown := cb, parseErrors := pe }
  | .fresh s _ pd ds tc cb pe =>
    some { rawText := s, parsedData := pd, dailySummary := ds, tasksCount := tc,
           categoryBreakdown := cb, parseErrors := pe }
  | .noActivity => none

/-- The store state for one `(user, date)` key on the teams route. -/
structure TeamsState where
  cache : Option TeamsRow
  genCalls : Nat

/-- A teams handler run: response data, resulting state, writes issued. -/
structure TeamsOutcome where
  data : TeamsData
  state : TeamsState
  writes : List CacheWrite

/-- The save step of the teams `POST /teams/generate-summary` handler
(teams/index.ts): one `upsert` of the row keyed by `(user_id, date)` —
not a delete-then-insert. -/
def teamsSaveWrites (userId date : String) (row : TeamsRow) : List CacheWrite :=
  [.upsert (.user userId) date row]

/-- The cache-miss tail of the teams handler: empty extraction
short-circuits to the fixed no-activity response; otherwise build the
inline prompt, call the generation client, parse with the
`parseSummaryMarkdown` oracle `mdParse`, and upsert the row.  A save
error only logs ("저장 실패해도 생성된 요약은 반환"); the store is
modelled failure-free. -/
def teamsGenerateMiss (gen : String → String) (mdParse : String → MarkdownParsedData)
    (userId date : String) (projectData : List ProjectText) (forceRegenerate : Bool)
    (now : Nat) (st : TeamsState) : TeamsOutcome :=
  if projectData.isEmpty then
    { data := .noActivity, state := st, writes := [] }
  else
    let analysisPrompt := teamsPrompt date projectData
    let summary := gen analysisPrompt
    let parsedData := mdParse summary
    let row : TeamsRow :=
      { summaryText := summary, projectTexts := projectData,
        forceRegenerated := forceRegenerate, parsedData := parsedData,
        dailySummary := parsedData.dailySummary, createdAt := now }
    { data := .fresh summary projectData.length parsedData parsedData.dailySummary
        parsedData.totalTasks parsedData.categoryCounts parsedData.errors,
      state := { cache := some row, genCalls := st.genCalls + 1 },
      writes := teamsSaveWrites userId date row }

/-- The teams `POST /teams/generate-summary` handler (teams/index.ts),
for one `(user, date)` key and an authorized caller: unless forcing, a
cached row's summary text is re-parsed with the markdown oracle and
returned with `cached: true`; otherwise the cache-miss tail runs. -/
def teamsGenerateSummary (gen : String → String) (mdParse : String → MarkdownParsedData)
    (userId date : String) (projectData : List ProjectText) (forceRegenerate : Bool)
    (now : Nat) (st : TeamsState) : TeamsOutcome :=
  match forceRegenerate, st.cache with
  | false, some row =>
    let parsedData := mdParse row.summaryText
    { data := .cached row.summaryText row.createdAt parsedData parsedData.dailySummary
        parsedData.totalTasks parsedData.categoryCounts parsedData.errors,
      state := st, writes := [] }
  | false, none => teamsGenerateMiss gen mdParse userId date projectData false now st
  | true, _ => teamsGenerateMiss gen mdParse userId date projectData true now st

/-- The date list of `POST /daily-scrums/generate-summary-range`
(part_004): calendar days modelled as day numbers, the loop `for (d =
start; d <= end; d++)` giving the inclusive range, empty when
`startDate > endDate`. -/
def dateRange (startDate endDate : Nat) : List Nat :=
  (List.range (endDate + 1 - startDate)).map (fun i => startDate + i)

/-- The outcome of one internal `fetch` to the teams generate-summary
endpoint: a 2xx response, a non-ok response, or a thrown error. -/
inductive RangeOutcome where
  | ok : RangeOutcome
  | httpError : RangeOutcome
  | threw : RangeOutcome
deriving DecidableEq

/-- The response `data` of the range handler. -/
structure RangeResult where
  generatedDates : List Nat
  skippedDates : List Nat
  totalGenerated : Nat

/-- The body of the per-date loop of the range handler: an ok outcome
pushes the date to `generatedDates`, a non-ok response or a caught
error pushes it to `skippedDates`; the loop never aborts. -/
def rangeLoopStep (outcome : Nat → RangeOutcome) (acc : List Nat × List Nat)
    (date : Nat) : List Nat × List Nat :=
  match outcome date with
  | .ok => (acc.1 ++ [date], acc.2)
  | _ => (acc.1, acc.2 ++ [date])

/-- The per-date loop over the dates to generate. -/
def rangeLoop (outcome : Nat → RangeOutcome) (dates : List Nat) :
    List Nat × List Nat :=
  dates.foldl (rangeLoopStep outcome) ([], [])

/-- The `POST /daily-scrums/generate-summary-range` handler (part_004):
build the inclusive date list, read which of those dates already have a
summary (`cached`), filter them out unless forcing, loop over the
remaining dates issuing one internal generate-summary call each
(`outcome` models each call's result), and answer with the generated
dates and the skipped dates (the pre-existing dates are appended to the
skipped list when not forcing).  The second component is the list of
dates for which an internal generation call was issued. -/
def generateSummaryRange (cached : Nat → Bool) (outcome : Nat → RangeOutcome)
    (startDate endDate : Nat) (forceRegenerate : Bool) : RangeResult × List Nat :=
  let dates := dateRange startDate endDate
  let existingDates := dates.filter cached
  let datesToGenerate :=
    if forceRegenerate then dates else dates.filter (fun d => !(cached d))
  let looped := rangeLoop outcome datesToGenerate
  ({ generatedDates := looped.1,
     skippedDates := if forceRegenerate then looped.2 else looped.2 ++ existingDates,
     totalGenerated := looped.1.length },
   datesToGenerate)

/-- One request's progress through the guest handler's awaited steps:
0 = about to read the cache, 1 = about to call the generation client,
2 = about to delete the old row, 3 = about to insert the new row,
4 = finished. -/
structure RaceProc where
  pc : Nat
  summary : Option String
  result : Option GuestData

/-- The shared store plus two concurrent guest requests for the same
`(guest user, date)` key. -/
structure RaceState where
  cache : Option SummaryRow
  genCalls : Nat
  procA : RaceProc
  procB : RaceProc

/-- One awaited step of one guest request (the handler of part_005 cut
at its await points, `forceRegenerate = false`, non-empty project
data): read the cache and either finish with the cached response or
move on; call the generation client; delete the row; insert the row
built from the locally held generation result and finish. -/
def procStep (gen : String → String) (jsonParse : String → Option Json)
    (date : String) (projectData : List ProjectText) (now : Nat)
    (cache : Option SummaryRow) (genCalls : Nat) (p : RaceProc) :
    Option SummaryRow × Nat × RaceProc :=
  match p.pc with
  | 0 =>
    match cache with
    | some row =>
      let res : GuestData := .cached row.summaryText row.createdAt row.parsedData
        row.dailySummary row.workCategories row.projectTodos row.qualityScore
        row.qualityScoreExplanation []
      (cache, genCalls, { p with pc := 4, result := some res })
    | none =>
      if projectData.isEmpty then
        (cache, genCalls, { p with pc := 4, result := some .noActivity })
      else
        (cache, genCalls, { p with pc := 1 })
  | 1 =>
    let summary := gen (generateSummaryPrompt date projectData)
    (cache, genCalls + 1, { p with pc := 2, summary := some summary })
  | 2 => (none, genCalls, { p with pc := 3 })
  | 3 =>
    let summary := p.summary.getD ""
    let parsedData := parseSummaryJson (jsonParse summary)
    let row : SummaryRow :=
      { summaryText := summary, projectTexts := projectData,
        forceRegenerated := false, parsedData := parsedData,
        dailySummary := parsedData.summary, workCategories := parsedData.work_categories,
        projectTodos := parsedData.project_todos, qualityScore := parsedData.quality_score,
        qualityScoreExplanation := parsedData.quality_score_explanation, createdAt := now }
    let res : GuestData := .fresh summary projectData.length parsedData parsedData.summary
      parsedData.work_categories parsedData.project_todos parsedData.quality_score
      parsedData.quality_score_explanation parsedData.errors
    (some row, genCalls, { p with pc := 4, result := some res })
  | _ => (cache, genCalls, p)

/-- Advance the scheduled request (`true` = A, `false` = B) by one step;
each request carries its own store-assigned timestamp. -/
def raceStep (gen : String → String) (jsonParse : String → Option Json)
    (date : String) (projectData : List ProjectText) (nowA nowB : Nat)
    (which : Bool) (st : RaceState) : RaceState :=
  if which then
    let s := procStep gen jsonParse date projectData nowA st.cache st.genCalls st.procA
    { st with cache := s.1, genCalls := s.2.1, procA := s.2.2 }
  else
    let s := procStep gen jsonParse date projectData nowB st.cache st.genCalls st.procB
    { st with cache := s.1, genCalls := s.2.1, procB := s.2.2 }

/-- Run a schedule of interleaved steps of the two requests. -/
def raceRun (gen : String → String) (jsonParse : String → Option Json)
    (date : String) (projectData : List ProjectText) (nowA nowB : Nat)
    (sched : List Bool) (st : RaceState) : RaceState :=
  sched.foldl (fun s which => raceStep gen jsonParse date projectData nowA nowB which s) st

/-- The initial race state: the key uncached, no generation calls, both
requests at their cache check. -/
def raceInit : RaceState :=
  { cache := none, genCalls := 0,
    procA := { pc := 0, summary := none, result := none },
    procB := { pc := 0, summary := none, result := none } }

/-! ## Helper lemmas about the parser -/

/-- `parseSummaryJson` on a decoded non-null payload is the field-step
body. -/
theorem parseSummaryJson_some (parsed : Json) (h : parsed ≠ .null) :
    parseSummaryJson (some parsed) = parseSummaryJsonPayload parsed := by
  cases parsed <;> simp_all [parseSummaryJson]

/-- The running percentage total of `validateWorkCategories`, read off
the assembled buckets (an untaken bucket keeps percentage 0, so this
equals the code's accumulated `totalPercentage`). -/
def workCategoriesTotal (wc : WorkCategories) : Rat :=
  wc.planning.percentage + wc.frontend.percentage + wc.backend.percentage +
  wc.qa.percentage + wc.devops.percentage + wc.research.percentage +
  wc.other.percentage

/-- `validateWorkCategories` appends exactly the percentage-sum warning,
and only when the total is positive and off from 100 by more than 1. -/
theorem validateWorkCategories_eq (categories : Json) :
    validateWorkCategories categories =
      ((validateWorkCategories categories).1,
        if 0 < workCategoriesTotal (validateWorkCategories categories).1 ∧
            1 < jsAbs (workCategoriesTotal (validateWorkCategories categories).1 - 100) then
          [.percentageSumWarning (workCategoriesTotal (validateWorkCategories categories).1)]
        else []) := by
  simp only [validateWorkCategories, workCategoriesTotal]

/-- One loop step of `validateProjectTodos` only appends to both
accumulators. -/
theorem validateProjectTodoStep_append (acc : List (String × ProjectTodo) × List ParseErr)
    (sp : String × Json) :
    validateProjectTodoStep acc sp =
      (acc.1 ++ (validateProjectTodoStep ([], []) sp).1,
       acc.2 ++ (validateProjectTodoStep ([], []) sp).2) := by
  rcases sp with ⟨slug, project⟩
  simp only [validateProjectTodoStep]
  split
  · split <;> simp
  · simp

/-- The `validateProjectTodos` loop over any prefix accumulates by
appending. -/
theorem foldl_validateProjectTodoStep (l : List (String × Json)) :
    ∀ acc, l.foldl validateProjectTodoStep acc =
      (acc.1 ++ (l.foldl validateProjectTodoStep ([], [])).1,
       acc.2 ++ (l.foldl validateProjectTodoStep ([], [])).2) := by
  induction l with
  | nil => intro acc; simp
  | cons sp l ih =>
    intro acc
    rw [List.foldl_cons, List.foldl_cons, ih (validateProjectTodoStep acc sp),
      ih (validateProjectTodoStep ([], []) sp), validateProjectTodoStep_append acc sp]
    simp

/-- An array-valued `project_todos` entry contributes a kept record
(slug-named, empty todos) plus the `todosNotArray` error. -/
theorem array_entry_contribution (slug : String) (xs : List Json) :
    validateProjectTodoStep ([], []) (slug, .arr xs) =
      ([(slug, { project_id := none, project_name := .str slug, todos := [] })],
       [.todosNotArray slug]) := rfl

/-- Any array-valued entry of the `project_todos` payload is kept in the
result (with an empty todo list) and recorded as a `todosNotArray`
error. -/
theorem validateProjectTodos_array_entry (entries : List (String × Json))
    (slug : String) (xs : List Json) (hmem : (slug, Json.arr xs) ∈ entries) :
    (slug, ({ project_id := none, project_name := .str slug, todos := [] } : ProjectTodo)) ∈
      (validateProjectTodos (.obj entries)).1 ∧
    ParseErr.todosNotArray slug ∈ (validateProjectTodos (.obj entries)).2 := by
  induction entries with
  | nil => cases hmem
  | cons e rest ih =>
    have hunf : validateProjectTodos (.obj (e :: rest)) =
        ((validateProjectTodoStep ([], []) e).1 ++
          (rest.foldl validateProjectTodoStep ([], [])).1,
         (validateProjectTodoStep ([], []) e).2 ++
          (rest.foldl validateProjectTodoStep ([], [])).2) := by
      show (e :: rest).foldl validateProjectTodoStep ([], []) = _
      rw [List.foldl_cons, foldl_validateProjectTodoStep rest (validateProjectTodoStep ([], []) e)]
    rcases List.mem_cons.mp hmem with h | h
    · subst h
      rw [hunf, array_entry_contribution]
      constructor <;> simp
    · have hr := ih h
      rw [hunf]
      have h1 := hr.1
      have h2 := hr.2
      constructor
      · have he : (validateProjectTodos (.obj rest)).1 =
            (rest.foldl validateProjectTodoStep ([], [])).1 := rfl
        rw [he] at h1
        exact List.mem_append_right _ h1
      · have he : (validateProjectTodos (.obj rest)).2 =
            (rest.foldl validateProjectTodoStep ([], [])).2 := rfl
        rw [he] at h2
        exact List.mem_append_right _ h2

/-! ## Concrete payloads used as inputs -/

/-- The `work_categories` payload whose single present bucket claims 97
percent. -/
def wcJsonC4 : Json := .obj [("planning", .obj
  [("minutes", .num 60), ("percentage", .num 97), ("description", .str "x")])]

/-- An otherwise fully valid model payload whose categories sum to 97. -/
def payloadC4 : Json := .obj [
  ("summary", .obj [("p", .str "ok")]),
  ("work_categories", wcJsonC4),
  ("project_todos", .obj []),
  ("quality_score", .num 1),
  ("quality_score_explanation", .str "good")]

/-- `validateWorkCategories` on the 97-percent payload: the single
bucket is coerced and the sum warning is recorded. -/
theorem validateWorkCategories_wcJsonC4 :
    validateWorkCategories wcJsonC4 =
      ({ planning := { minutes := 60, percentage := 97, description := some (.str "x") },
         frontend := { minutes := 0, percentage := 0, description := none },
         backend := { minutes := 0, percentage := 0, description := none },
         qa := { minutes := 0, percentage := 0, description := none },
         devops := { minutes := 0, percentage := 0, description := none },
         research := { minutes := 0, percentage := 0, description := none },
         other := { minutes := 0, percentage := 0, description := none } },
       [.percentageSumWarning 97]) := by
  have hp : coerceWorkCategory wcJsonC4 "planning" =
      some { minutes := 60, percentage := 97, description := some (.str "x") } := rfl
  have h2 : coerceWorkCategory wcJsonC4 "frontend" = none := rfl
  have h3 : coerceWorkCategory wcJsonC4 "backend" = none := rfl
  have h4 : coerceWorkCategory wcJsonC4 "qa" = none := rfl
  have h5 : coerceWorkCategory wcJsonC4 "devops" = none := rfl
  have h6 : coerceWorkCategory wcJsonC4 "research" = none := rfl
  have h7 : coerceWorkCategory wcJsonC4 "other" = none := rfl
  simp only [validateWorkCategories, hp, h2, h3, h4, h5, h6, h7,
    Option.getD_some, Option.getD_none]
  norm_num [jsAbs]

/-- `validateWorkCategories` on an empty object: all buckets default,
total 0, and — by the positivity guard — no warning. -/
theorem validateWorkCategories_emptyObj :
    validateWorkCategories (.obj []) = (getEmptyWorkCategories, []) := by
  have h1 : coerceWorkCategory (.obj []) "planning" = none := rfl
  have h2 : coerceWorkCategory (.obj []) "frontend" = none := rfl
  have h3 : coerceWorkCategory (.obj []) "backend" = none := rfl
  have h4 : coerceWorkCategory (.obj []) "qa" = none := rfl
  have h5 : coerceWorkCategory (.obj []) "devops" = none := rfl
  have h6 : coerceWorkCategory (.obj []) "research" = none := rfl
  have h7 : coerceWorkCategory (.obj []) "other" = none := rfl
  simp only [validateWorkCategories, h1, h2, h3, h4, h5, h6, h7, Option.getD_none]
  norm_num [getEmptyWorkCategories]

/-- A payload whose `project_todos["p"]` is the array `["a","b"]`, all
other fields valid. -/
def payloadC3 : Json := .obj [
  ("summary", .obj [("p", .str "ok")]),
  ("work_categories", .obj []),
  ("project_todos", .obj [
    ("p", .arr [.str "a", .str "b"]),
    ("q", .obj [("project_name", .str "Q"),
      ("todos", .arr [.obj [("text", .str "do"), ("category", .str "backend")]])])]),
  ("quality_score", .num 1),
  ("quality_score_explanation", .str "fine")]

/-- A 501-character string. -/
def longText : String := String.mk (List.replicate 501 'a')

/-- A payload whose single summary value has 501 characters. -/
def payloadC5 : Json := .obj [("summary", .obj [("p", .str longText)])]

/-! ## C2 -/

/-- C2: `parseSummaryJson` reports `parseSuccess = true` exactly when
the summary mapping is non-empty and the accumulated error list is
empty; the (partially repaired) record itself is returned in every
case — `parseSummaryJson` is total. -/
theorem parse_success_iff_nonempty_and_no_errors (input : Option Json) :
    (parseSummaryJson input).parseSuccess = true ↔
      ((parseSummaryJson input).summary ≠ [] ∧ (parseSummaryJson input).errors = []) := by
  match input with
  | none => simp [parseSummaryJson, emptyParsedSummaryData]
  | some .null => simp [parseSummaryJson, emptyParsedSummaryData]
  | some (.bool b) => simp [parseSummaryJson, parseSummaryJsonPayload, List.isEmpty_iff]
  | some (.num q) => simp [parseSummaryJson, parseSummaryJsonPayload, List.isEmpty_iff]
  | some (.str s) => simp [parseSummaryJson, parseSummaryJsonPayload, List.isEmpty_iff]
  | some (.arr xs) => simp [parseSummaryJson, parseSummaryJsonPayload, List.isEmpty_iff]
  | some (.obj fields) => simp [parseSummaryJson, parseSummaryJsonPayload, List.isEmpty_iff]

/-! ## C3 -/

/-- C3 counterexample: on a payload whose `project_todos["p"]` is
`["a","b"]`, the entry is *kept* (slug-named, empty todos) rather than
dropped; the error names the key and the rest of the record is
returned. -/
theorem array_entry_kept_not_dropped :
    (parseSummaryJson (some payloadC3)).project_todos =
      [("p", { project_id := none, project_name := .str "p", todos := [] }),
       ("q", { project_id := none, project_name := .str "Q",
               todos := [{ text := "do", category := "backend" }] })] ∧
    (parseSummaryJson (some payloadC3)).errors = [.todosNotArray "p"] ∧
    (parseSummaryJson (some payloadC3)).summary = [("p", .str "ok")] := by
  have hnn : payloadC3 ≠ .null := by intro h; exact Json.noConfusion h
  rw [parseSummaryJson_some _ hnn]
  have htd : validateProjectTodos (.obj [
      ("p", .arr [.str "a", .str "b"]),
      ("q", .obj [("project_name", .str "Q"),
        ("todos", .arr [.obj [("text", .str "do"), ("category", .str "backend")]])])]) =
      ([("p", { project_id := none, project_name := .str "p", todos := [] }),
        ("q", { project_id := none, project_name := .str "Q",
                todos := [{ text := "do", category := "backend" }] })],
       [.todosNotArray "p"]) := rfl
  have hg1 : payloadC3.getField "summary" = some (.obj [("p", .str "ok")]) := rfl
  have hg2 : payloadC3.getField "work_categories" = some (.obj []) := rfl
  have hg3 : payloadC3.getField "project_todos" = some (.obj [
      ("p", .arr [.str "a", .str "b"]),
      ("q", .obj [("project_name", .str "Q"),
        ("todos", .arr [.obj [("text", .str "do"), ("category", .str "backend")]])])]) := rfl
  have hg4 : payloadC3.getField "quality_score" = some (.num 1) := rfl
  have hg5 : payloadC3.getField "quality_score_explanation" = some (.str "fine") := rfl
  simp only [parseSummaryJsonPayload, hg1, hg2, hg3, hg4, hg5,
    validateWorkCategories_emptyObj, htd, Json.truthy, Json.typeofObject, Json.isArray,
    Json.objFields, Bool.and_self, if_true]
  norm_num
  decide

/-- C3 amended: an array-valued `project_todos` entry is kept in the
returned record with the slug as project name and an empty todo list,
the `todosNotArray` error names the offending key, and the rest of the
record is still returned. -/
theorem array_entry_recovery (parsed : Json) (entries : List (String × Json))
    (slug : String) (xs : List Json)
    (hf : parsed.getField "project_todos" = some (.obj entries))
    (hmem : (slug, Json.arr xs) ∈ entries) :
    (slug, ({ project_id := none, project_name := .str slug, todos := [] } : ProjectTodo)) ∈
      (parseSummaryJson (some parsed)).project_todos ∧
    ParseErr.todosNotArray slug ∈ (parseSummaryJson (some parsed)).errors := by
  have hnn : parsed ≠ .null := by rintro rfl; simp [Json.getField] at hf
  rw [parseSummaryJson_some parsed hnn]
  have hv := validateProjectTodos_array_entry entries slug xs hmem
  simp only [parseSummaryJsonPayload, hf, Json.truthy, Json.typeofObject, Bool.and_self,
    if_true]
  refine ⟨hv.1, ?_⟩
  simp [List.mem_append, hv.2]

/-- C3 amended at the concrete `["a","b"]` payload. -/
theorem array_entry_recovery_witness :
    ("p", ({ project_id := none, project_name := .str "p", todos := [] } : ProjectTodo)) ∈
      (parseSummaryJson (some payloadC3)).project_todos ∧
    ParseErr.todosNotArray "p" ∈ (parseSummaryJson (some payloadC3)).errors :=
  array_entry_recovery payloadC3 _ "p" [.str "a", .str "b"] rfl (List.mem_cons_self _ _)

/-! ## C4 -/

/-- C4 counterexample: categories summing to 97 append the warning to
the same `errors` list that success checks, so `parseSuccess` is
`false` although no other error exists and the summary is non-empty. -/
theorem percentage_warning_is_fatal_at_97 :
    (parseSummaryJson (some payloadC4)).errors = [.percentageSumWarning 97] ∧
    (parseSummaryJson (some payloadC4)).parseSuccess = false ∧
    (parseSummaryJson (some payloadC4)).summary = [("p", .str "ok")] := by
  have hnn : payloadC4 ≠ .null := by intro h; exact Json.noConfusion h
  rw [parseSummaryJson_some _ hnn]
  have hg1 : payloadC4.getField "summary" = some (.obj [("p", .str "ok")]) := rfl
  have hg2 : payloadC4.getField "work_categories" = some wcJsonC4 := rfl
  have hg3 : payloadC4.getField "project_todos" = some (.obj []) := rfl
  have hg4 : payloadC4.getField "quality_score" = some (.num 1) := rfl
  have hg5 : payloadC4.getField "quality_score_explanation" = some (.str "good") := rfl
  have htd : validateProjectTodos (.obj []) = ([], []) := rfl
  simp only [parseSummaryJsonPayload, hg1, hg2, hg3, hg4, hg5,
    validateWorkCategories_wcJsonC4, htd, Json.truthy, Json.typeofObject, Json.isArray,
    Json.objFields, Bool.and_self, if_true]
  norm_num
  decide

/-- C4 amended: whenever the assembled percentages have a positive
total deviating from 100 by more than 1, the warning lands in the
record's `errors` list — and because success checks that same list,
`parseSuccess` is `false` even when no other error exists. -/
theorem percentage_sum_warning_appended (parsed v : Json)
    (hf : parsed.getField "work_categories" = some v)
    (ht : v.truthy = true) (hty : v.typeofObject = true)
    (hpos : 0 < workCategoriesTotal (validateWorkCategories v).1)
    (hdev : 1 < jsAbs (workCategoriesTotal (validateWorkCategories v).1 - 100)) :
    ParseErr.percentageSumWarning (workCategoriesTotal (validateWorkCategories v).1) ∈
      (parseSummaryJson (some parsed)).errors ∧
    (parseSummaryJson (some parsed)).parseSuccess = false := by
  have hnn : parsed ≠ Json.null := by
    rintro rfl
    simp [Json.getField] at hf
  rw [parseSummaryJson_some parsed hnn]
  have hwarn : (validateWorkCategories v).2 =
      [ParseErr.percentageSumWarning (workCategoriesTotal (validateWorkCategories v).1)] := by
    conv_lhs => rw [validateWorkCategories_eq v]
    simp [hpos, hdev]
  simp only [parseSummaryJsonPayload, hf, ht, hty]
  simp [hwarn, List.isEmpty_iff]

/-- The 97-percent payload's assembled total is 97. -/
theorem workCategoriesTotal_wcJsonC4 :
    workCategoriesTotal (validateWorkCategories wcJsonC4).1 = 97 := by
  rw [validateWorkCategories_wcJsonC4]
  norm_num [workCategoriesTotal]

/-- C4 amended at the concrete sum-97 payload. -/
theorem percentage_sum_warning_appended_witness :
    ParseErr.percentageSumWarning (workCategoriesTotal (validateWorkCategories wcJsonC4).1) ∈
      (parseSummaryJson (some payloadC4)).errors ∧
    (parseSummaryJson (some payloadC4)).parseSuccess = false :=
  percentage_sum_warning_appended payloadC4 wcJsonC4 rfl rfl rfl
    (by rw [workCategoriesTotal_wcJsonC4]; norm_num)
    (by rw [workCategoriesTotal_wcJsonC4]; norm_num [jsAbs])

/-! ## C5 -/

set_option maxRecDepth 4000 in
/-- C5 counterexample: a 501-character summary value is returned
unmodified — no 500-character cap is applied. -/
theorem summary_value_length_unbounded :
    (parseSummaryJson (some payloadC5)).summary = [("p", .str longText)] ∧
    500 < longText.length := by
  constructor
  · have hnn : payloadC5 ≠ .null := by intro h; exact Json.noConfusion h
    rw [parseSummaryJson_some _ hnn]
    rfl
  · decide

/-- C5 amended: the summary mapping of the payload is copied into the
returned record verbatim; values are not truncated or length-checked. -/
theorem summary_copied_verbatim (parsed : Json) (m : List (String × Json))
    (hf : parsed.getField "summary" = some (.obj m)) :
    (parseSummaryJson (some parsed)).summary = m := by
  have hnn : parsed ≠ .null := by rintro rfl; simp [Json.getField] at hf
  rw [parseSummaryJson_some parsed hnn]
  simp [parseSummaryJsonPayload, hf, Json.truthy, Json.typeofObject, Json.isArray,
    Json.objFields]

/-- C5 amended at the concrete 501-character payload. -/
theorem summary_copied_verbatim_witness :
    (parseSummaryJson (some payloadC5)).summary = [("p", .str longText)] :=
  summary_copied_verbatim payloadC5 [("p", .str longText)] rfl

/-! ## C6 -/

/-- A 150,001-character user text. -/
def bigText : String := String.mk (List.replicate 150001 'a')

/-- Its length. -/
theorem bigText_length : bigText.length = 150001 := by
  show (List.replicate 150001 'a').length = 150001
  exact List.length_replicate ..

/-- The rendered prompt on the 150,001-character project exceeds the
bound before truncation. -/
theorem renderedSummaryPrompt_bigText :
    MAX_CHARS < (renderedSummaryPrompt "2025-01-01" [⟨"p", bigText⟩]).length := by
  have hsec : renderedSummaryPrompt "2025-01-01" [⟨"p", bigText⟩] =
      promptHeaderA ++ "2025-01-01" ++ promptHeaderB ++ toString (1 : Nat) ++ promptHeaderC ++
        projectSection ⟨"p", bigText⟩ ++ promptClosing := by
    have hint : String.intercalate "\n" [projectSection ⟨"p", bigText⟩] =
        projectSection ⟨"p", bigText⟩ := rfl
    simp [renderedSummaryPrompt, hint]
  rw [hsec]
  have hps : bigText.length ≤ (projectSection ⟨"p", bigText⟩).length := by
    simp only [projectSection, String.length_append]
    omega
  have hb := bigText_length
  simp only [String.length_append, MAX_CHARS]
  omega

/-- C6 counterexample: after truncation the returned prompt has
150,018 characters — 150,000 plus the 18-character marker — exceeding
the claimed 150,000-character bound (and the truncation cut the whole
rendered prompt, whose trailing instruction block follows the data
section, at offset 150,000). -/
theorem truncated_prompt_exceeds_bound :
    (generateSummaryPrompt "2025-01-01" [⟨"p", bigText⟩]).length = 150018 ∧
    MAX_CHARS < (generateSummaryPrompt "2025-01-01" [⟨"p", bigText⟩]).length := by
  have hbig := renderedSummaryPrompt_bigText
  have heq : generateSummaryPrompt "2025-01-01" [⟨"p", bigText⟩] =
      jsSubstring (renderedSummaryPrompt "2025-01-01" [⟨"p", bigText⟩]) MAX_CHARS ++
        truncationMarker := by
    simp only [generateSummaryPrompt]
    rw [if_pos hbig]
  have hsub : (jsSubstring (renderedSummaryPrompt "2025-01-01" [⟨"p", bigText⟩])
      MAX_CHARS).length = MAX_CHARS := by
    show (List.take MAX_CHARS _).length = MAX_CHARS
    rw [List.length_take]
    exact Nat.min_eq_left (Nat.le_of_lt hbig)
  have hm : truncationMarker.length = 18 := rfl
  rw [heq, String.length_append, hsub, hm]
  constructor
  · rfl
  · decide

/-- C6 amended: `generateSummaryPrompt` is a function of its inputs
(deterministic), and either returns the rendered prompt unchanged (when
it is within 150,000 characters) or cuts the whole rendered prompt —
trailing instruction block included — at offset 150,000 and appends the
18-character marker, for a total of exactly 150,018 characters. -/
theorem generateSummaryPrompt_truncation (date : String) (projectData : List ProjectText) :
    (generateSummaryPrompt date projectData = renderedSummaryPrompt date projectData ∧
      (renderedSummaryPrompt date projectData).length ≤ MAX_CHARS) ∨
    (generateSummaryPrompt date projectData =
        jsSubstring (renderedSummaryPrompt date projectData) MAX_CHARS ++ truncationMarker ∧
      (generateSummaryPrompt date projectData).length = MAX_CHARS + 18 ∧
      MAX_CHARS < (renderedSummaryPrompt date projectData).length) := by
  by_cases h : MAX_CHARS < (renderedSummaryPrompt date projectData).length
  · right
    have heq : generateSummaryPrompt date projectData =
        jsSubstring (renderedSummaryPrompt date projectData) MAX_CHARS ++ truncationMarker := by
      simp only [generateSummaryPrompt]
      rw [if_pos h]
    refine ⟨heq, ?_, h⟩
    have hsub : (jsSubstring (renderedSummaryPrompt date projectData) MAX_CHARS).length =
        MAX_CHARS := by
      show (List.take MAX_CHARS _).length = MAX_CHARS
      rw [List.length_take]
      exact Nat.min_eq_left (Nat.le_of_lt h)
    rw [heq, String.length_append, hsub]
    rfl
  · left
    have heq : generateSummaryPrompt date projectData = renderedSummaryPrompt date projectData := by
      simp only [generateSummaryPrompt]
      rw [if_neg h]
    exact ⟨heq, Nat.le_of_not_lt h⟩

/-! ## Stub oracles used for concrete runs -/

/-- A constant generation-client oracle. -/
def genStub : String → String := fun _ => "output"

/-- A JSON.parse oracle in which decoding throws. -/
def jsonParseStub : String → Option Json := fun _ => none

/-- A constant markdown-parse oracle. -/
def mdParseStub : String → MarkdownParsedData := fun _ =>
  { dailySummary := "", tasksByProject := [], totalTasks := 0, categoryCounts := [],
    parseSuccess := false, errors := [] }

/-! ## C1 -/

/-- The idempotence property of two successive generate-summary calls
with the same `(subject, date)` and `forceRegenerate = false`: across
both calls at most one generation-client call is issued, the second
call issues none, answers `cached: true`, and carries the same
SummaryRecord fields as the first answer — on the guest route and on
the teams route. -/
def SecondCallCachedSame (gen : String → String) (jsonParse : String → Option Json)
    (mdParse : String → MarkdownParsedData) (userId date : String)
    (pd : List ProjectText) (now1 now2 : Nat) (gst : GuestState) (tst : TeamsState) : Prop :=
  (let o1 := guestGenerateSummary gen jsonParse userId date pd false now1 gst
   let o2 := guestGenerateSummary gen jsonParse userId date pd false now2 o1.state
   o2.state.genCalls ≤ gst.genCalls + 1 ∧
   o2.state.genCalls = o1.state.genCalls ∧
   o2.data.cachedFlag = true ∧
   o2.data.recordView = o1.data.recordView ∧
   o1.data.recordView.isSome = true) ∧
  (let t1 := teamsGenerateSummary gen mdParse userId date pd false now1 tst
   let t2 := teamsGenerateSummary gen mdParse userId date pd false now2 t1.state
   t2.state.genCalls ≤ tst.genCalls + 1 ∧
   t2.state.genCalls = t1.state.genCalls ∧
   t2.data.cachedFlag = true ∧
   t2.data.recordView = t1.data.recordView ∧
   t1.data.recordView.isSome = true)

/-- C1: with a non-empty extraction, two same-input calls issue at most
one generation call in total, and the second call is a cache hit whose
record equals the first call's. -/
theorem getOrGenerateSummary_idempotent (gen : String → String)
    (jsonParse : String → Option Json) (mdParse : String → MarkdownParsedData)
    (userId date : String) (pd : List ProjectText) (now1 now2 : Nat)
    (gst : GuestState) (tst : TeamsState) (hpd : pd ≠ []) :
    SecondCallCachedSame gen jsonParse mdParse userId date pd now1 now2 gst tst := by
  have hpe : pd.isEmpty = false := by simp [List.isEmpty_iff, hpd]
  unfold SecondCallCachedSame
  constructor
  · cases hc : gst.cache with
    | some row =>
      simp [guestGenerateSummary, hc, GuestData.cachedFlag, GuestData.recordView]
    | none =>
      simp [guestGenerateSummary, hc, guestGenerateMiss, hpe, GuestData.cachedFlag,
        GuestData.recordView]
  · cases hc : tst.cache with
    | some row =>
      simp [teamsGenerateSummary, hc, TeamsData.cachedFlag, TeamsData.recordView]
    | none =>
      simp [teamsGenerateSummary, hc, teamsGenerateMiss, hpe, TeamsData.cachedFlag,
        TeamsData.recordView]

/-- C1 at concrete inputs: stub oracles, one project text, cold caches. -/
theorem getOrGenerateSummary_idempotent_witness :
    SecondCallCachedSame genStub jsonParseStub mdParseStub "u" "2025-01-01"
      [{ projectName := "p", userText := "hello" }] 0 1
      { cache := none, genCalls := 0 } { cache := none, genCalls := 0 } :=
  getOrGenerateSummary_idempotent genStub jsonParseStub mdParseStub "u" "2025-01-01"
    [{ projectName := "p", userText := "hello" }] 0 1
    { cache := none, genCalls := 0 } { cache := none, genCalls := 0 } (by simp)

/-! ## C7 -/

/-- The empty-day property: with zero extracted project texts, both
routes answer the fixed no-activity record, leave the store state
untouched (no generation call, no cache write), and — in particular —
a later call behaves exactly as if the empty-day call had never
happened. -/
def EmptyDayShortCircuit (gen : String → String) (jsonParse : String → Option Json)
    (mdParse : String → MarkdownParsedData) (userId date : String) (force : Bool)
    (now : Nat) (gst : GuestState) (tst : TeamsState) : Prop :=
  (let o := guestGenerateSummary gen jsonParse userId date [] force now gst
   o.data = .noActivity ∧ o.state = gst ∧ o.writes = [] ∧
   (∀ pd2 now3, guestGenerateSummary gen jsonParse userId date pd2 false now3 o.state =
       guestGenerateSummary gen jsonParse userId date pd2 false now3 gst)) ∧
  (let t := teamsGenerateSummary gen mdParse userId date [] force now tst
   t.data = .noActivity ∧ t.state = tst ∧ t.writes = [])

/-- C7: an empty extraction short-circuits to the fixed no-activity
response without generating and without writing, so the cache is not
poisoned for later calls.  (The handlers reach the extraction only past
the cache check: cold cache or forcing.) -/
theorem empty_day_no_generate_no_write (gen : String → String)
    (jsonParse : String → Option Json) (mdParse : String → MarkdownParsedData)
    (userId date : String) (force : Bool) (now : Nat) (gst : GuestState) (tst : TeamsState)
    (hg : gst.cache = none ∨ force = true) (ht : tst.cache = none ∨ force = true) :
    EmptyDayShortCircuit gen jsonParse mdParse userId date force now gst tst := by
  unfold EmptyDayShortCircuit
  constructor
  · cases force with
    | true => simp [guestGenerateSummary, guestGenerateMiss]
    | false =>
      have hc : gst.cache = none := by
        rcases hg with h | h
        · exact h
        · exact absurd h (by simp)
      simp [guestGenerateSummary, hc, guestGenerateMiss]
  · cases force with
    | true => simp [teamsGenerateSummary, teamsGenerateMiss]
    | false =>
      have hc : tst.cache = none := by
        rcases ht with h | h
        · exact h
        · exact absurd h (by simp)
      simp [teamsGenerateSummary, hc, teamsGenerateMiss]

/-- C7 at concrete inputs: cold caches, no forcing. -/
theorem empty_day_no_generate_no_write_witness :
    EmptyDayShortCircuit genStub jsonParseStub mdParseStub "u" "2025-01-01" false 0
      { cache := none, genCalls := 0 } { cache := none, genCalls := 0 } :=
  empty_day_no_generate_no_write genStub jsonParseStub mdParseStub "u" "2025-01-01" false 0
    { cache := none, genCalls := 0 } { cache := none, genCalls := 0 }
    (Or.inl rfl) (Or.inl rfl)

/-! ## C9 -/

/-- The guest route's write protocol after a generation: exactly a
delete of the `(guest user, date)` key followed by the insert of the
new row, whose store-assigned creation timestamp is this run's clock,
and which is the row the cache then holds. -/
def GuestDeleteThenInsert (gen : String → String) (jsonParse : String → Option Json)
    (userId date : String) (pd : List ProjectText) (force : Bool) (now : Nat)
    (gst : GuestState) : Prop :=
  let o := guestGenerateSummary gen jsonParse userId date pd force now gst
  ∃ row : SummaryRow,
    o.writes = [.delete (.guest userId) date, .insert (.guest userId) date row] ∧
    row.createdAt = now ∧ o.state.cache = some row

/-- C9 amended: on the guest route every post-generation cache write is
the delete-then-insert pair (fresh creation timestamp, exactly one row
per key afterwards); the teams route instead issues a single upsert for
its row. -/
theorem cache_write_protocols (gen : String → String) (jsonParse : String → Option Json)
    (userId date : String) (pd : List ProjectText) (force : Bool) (now : Nat)
    (gst : GuestState) (hg : gst.cache = none ∨ force = true) (hpd : pd ≠ []) :
    GuestDeleteThenInsert gen jsonParse userId date pd force now gst ∧
    (∀ (uid d : String) (row : TeamsRow),
      teamsSaveWrites uid d row = [.upsert (.user uid) d row]) := by
  have hpe : pd.isEmpty = false := by simp [List.isEmpty_iff, hpd]
  constructor
  · unfold GuestDeleteThenInsert
    cases force with
    | true =>
      simp only [guestGenerateSummary, guestGenerateMiss, hpe, Bool.false_eq_true,
        if_false]
      exact ⟨_, rfl, rfl, rfl⟩
    | false =>
      have hc : gst.cache = none := by
        rcases hg with h | h
        · exact h
        · exact absurd h (by simp)
      simp only [guestGenerateSummary, hc, guestGenerateMiss, hpe, Bool.false_eq_true,
        if_false]
      exact ⟨_, rfl, rfl, rfl⟩
  · intro uid d row
    rfl

/-- C9 amended at concrete inputs. -/
theorem cache_write_protocols_witness :
    GuestDeleteThenInsert genStub jsonParseStub "u" "2025-01-01"
      [{ projectName := "p", userText := "hello" }] false 0
      { cache := none, genCalls := 0 } ∧
    (∀ (uid d : String) (row : TeamsRow),
      teamsSaveWrites uid d row = [.upsert (.user uid) d row]) :=
  cache_write_protocols genStub jsonParseStub "u" "2025-01-01"
    [{ projectName := "p", userText := "hello" }] false 0
    { cache := none, genCalls := 0 } (Or.inl rfl) (by simp)

/-- C9 counterexample: on the teams route the cache write after a
successful generation is an upsert — there is no delete-then-insert. -/
theorem teams_cache_write_is_upsert :
    ((teamsGenerateSummary genStub mdParseStub "u" "2025-01-01"
        [{ projectName := "p", userText := "hello" }] false 0
        { cache := none, genCalls := 0 }).writes.any CacheWrite.isUpsert) = true ∧
    ((teamsGenerateSummary genStub mdParseStub "u" "2025-01-01"
        [{ projectName := "p", userText := "hello" }] false 0
        { cache := none, genCalls := 0 }).writes.any CacheWrite.isDelete) = false := by
  exact ⟨rfl, rfl⟩

/-! ## C10 -/

/-- The interleaving in which both requests pass their cache check
before either generates: A check, B check, then A and B each run
generate, delete, insert. -/
def raceSchedBoth : List Bool := [true, false, true, true, true, false, false, false]

/-- C10: with no per-key serialization in the handler, the interleaving
`raceSchedBoth` of two requests for the same uncached key makes two
generation-client calls, both callers get a non-cached (fresh) answer,
and the cache ends up holding whichever insert landed last (here B's,
with its own timestamp). -/
theorem race_two_generate_calls :
    (raceRun genStub jsonParseStub "2025-01-01"
        [{ projectName := "p", userText := "hello" }] 1 2 raceSchedBoth raceInit).genCalls
      = 2 ∧
    ((raceRun genStub jsonParseStub "2025-01-01"
        [{ projectName := "p", userText := "hello" }] 1 2 raceSchedBoth
        raceInit).procA.result).map GuestData.cachedFlag = some false ∧
    ((raceRun genStub jsonParseStub "2025-01-01"
        [{ projectName := "p", userText := "hello" }] 1 2 raceSchedBoth
        raceInit).procB.result).map GuestData.cachedFlag = some false ∧
    ((raceRun genStub jsonParseStub "2025-01-01"
        [{ projectName := "p", userText := "hello" }] 1 2 raceSchedBoth
        raceInit).cache).map SummaryRow.createdAt = some 2 := by
  exact ⟨rfl, rfl, rfl, rfl⟩

/-! ## C8 -/

/-- The range loop partitions its input dates by the per-date call
outcome, in order. -/
theorem foldl_rangeLoopStep (outcome : Nat → RangeOutcome) (l : List Nat) :
    ∀ acc, l.foldl (rangeLoopStep outcome) acc =
      (acc.1 ++ l.filter (fun d => outcome d == .ok),
       acc.2 ++ l.filter (fun d => !(outcome d == .ok))) := by
  induction l with
  | nil => intro acc; simp
  | cons d l ih =>
    intro acc
    rw [List.foldl_cons, ih]
    rcases h : outcome d with _ | _ | _ <;>
      simp [rangeLoopStep, h, List.filter_cons]

/-- `rangeLoop` computed as two filters. -/
theorem rangeLoop_eq (outcome : Nat → RangeOutcome) (l : List Nat) :
    rangeLoop outcome l =
      (l.filter (fun d => outcome d == .ok), l.filter (fun d => !(outcome d == .ok))) := by
  have h := foldl_rangeLoopStep outcome l ([], [])
  simpa [rangeLoop] using h

/-- What claim C8 asserts of a non-forcing batch run: the internal
generate-summary calls are exactly the uncached dates of the inclusive
range (in particular none for a cached date); the answered
generated/skipped lists partition the range's dates; and each per-date
call lands the date in `generatedDates` when it succeeded and in
`skippedDates` when it failed — the loop never aborts. -/
def RangeBatchSpec (cached : Nat → Bool) (outcome : Nat → RangeOutcome)
    (startDate endDate : Nat) : Prop :=
  let r := generateSummaryRange cached outcome startDate endDate false
  r.2 = (dateRange startDate endDate).filter (fun d => !(cached d)) ∧
  (∀ d, cached d = true → d ∉ r.2) ∧
  (r.1.generatedDates ++ r.1.skippedDates).Perm (dateRange startDate endDate) ∧
  (∀ d, d ∈ r.1.generatedDates → d ∉ r.1.skippedDates) ∧
  (∀ d, d ∈ r.2 → outcome d = .ok → d ∈ r.1.generatedDates) ∧
  (∀ d, d ∈ r.2 → outcome d ≠ .ok → d ∈ r.1.skippedDates)

/-- C8: the batch range run satisfies `RangeBatchSpec` for every cache
content and every per-date outcome. -/
theorem generateRange_partitions (cached : Nat → Bool) (outcome : Nat → RangeOutcome)
    (startDate endDate : Nat) : RangeBatchSpec cached outcome startDate endDate := by
  unfold RangeBatchSpec
  set dates := dateRange startDate endDate with hdates
  have hr : generateSummaryRange cached outcome startDate endDate false =
      ({ generatedDates := (dates.filter (fun d => !(cached d))).filter
            (fun d => outcome d == .ok),
         skippedDates := (dates.filter (fun d => !(cached d))).filter
            (fun d => !(outcome d == .ok)) ++ dates.filter cached,
         totalGenerated := ((dates.filter (fun d => !(cached d))).filter
            (fun d => outcome d == .ok)).length },
       dates.filter (fun d => !(cached d))) := by
    simp [generateSummaryRange, rangeLoop_eq, hdates]
  rw [hr]
  dsimp only
  refine ⟨rfl, ?_, ?_, ?_, ?_, ?_⟩
  · intro d hd hmem
    have := (List.mem_filter.mp hmem).2
    simp [hd] at this
  · -- partition permutation
    have h2 := List.filter_append_perm (fun d => outcome d == .ok)
      (dates.filter (fun d => !(cached d)))
    have h3 : (dates.filter (fun d => !(cached d)) ++ dates.filter cached).Perm dates := by
      have hcc : dates.filter (fun x => !(!(cached x))) = dates.filter cached := by
        apply List.filter_congr
        intro x _
        simp
      rw [← hcc]
      exact List.filter_append_perm (fun d => !(cached d)) dates
    show ((dates.filter (fun d => !(cached d))).filter (fun d => outcome d == .ok) ++
        ((dates.filter (fun d => !(cached d))).filter (fun d => !(outcome d == .ok)) ++
          dates.filter cached)).Perm dates
    rw [← List.append_assoc]
    exact (h2.append_right _).trans h3
  · intro d hg hs
    have hok : (outcome d == .ok) = true := (List.mem_filter.mp hg).2
    rcases List.mem_append.mp hs with h | h
    · have := (List.mem_filter.mp h).2
      simp [hok] at this
    · have hcached : cached d = true := (List.mem_filter.mp h).2
      have hg2 : d ∈ dates.filter (fun d => !(cached d)) := (List.mem_filter.mp hg).1
      have := (List.mem_filter.mp hg2).2
      simp [hcached] at this
  · intro d hd hok
    exact List.mem_filter.mpr ⟨hd, by simp [hok]⟩
  · intro d hd hok
    exact List.mem_append_left _ (List.mem_filter.mpr ⟨hd, by simp [hok]⟩)
